import Mathlib

/-!
Shallow embedding of the payment-report aggregation of `src/app.js`
(route `GET /relatorios/pagamento`).

JavaScript numbers are modelled exactly: a value is either a finite
rational or one of the special values `NaN`, `Infinity`, `-Infinity`
(overflow and rounding of IEEE doubles are not modelled; the aggregation
only adds, subtracts and multiplies caller-supplied amounts).
Nullable columns are `Option JSNum` (`none` = SQL `NULL` / absent field,
so that `x ?? d` becomes `Option.getD x d`).  The transient keyed `Map`
of the handler and the `dias` object of each accumulator are association
lists preserving insertion order, which is how a JS `Map` and a JS object
with string keys enumerate.
-/

/-- A JavaScript number: a finite (exact) rational, `NaN`, `Infinity` or
`-Infinity`. -/
inductive JSNum where
  | fin (q : ℚ)
  | nan
  | inf
  | ninf
deriving DecidableEq, Repr

namespace JSNum

/-- `Number.isFinite`. -/
def isFinite : JSNum → Bool
  | fin _ => true
  | _ => false

/-- JavaScript addition on the modelled domain: `NaN` absorbs, opposite
infinities give `NaN`, an infinity absorbs finite values. -/
def add : JSNum → JSNum → JSNum
  | nan, _ => nan
  | _, nan => nan
  | inf, ninf => nan
  | ninf, inf => nan
  | inf, _ => inf
  | _, inf => inf
  | ninf, _ => ninf
  | _, ninf => ninf
  | fin a, fin b => fin (a + b)

/-- JavaScript negation. -/
def neg : JSNum → JSNum
  | fin q => fin (-q)
  | nan => nan
  | inf => ninf
  | ninf => inf

/-- JavaScript subtraction, `a - b = a + (-b)`. -/
def sub (a b : JSNum) : JSNum := a.add b.neg

/-- The value of `Number.isFinite(x) ? x : d` as a rational. -/
def finOr (x : JSNum) (d : ℚ) : ℚ :=
  match x with
  | fin q => q
  | _ => d

/-- The value of `Number(x || 0)` on a number `x`: the falsy numbers
`0`, `-0` and `NaN` become `0`, everything else is unchanged. -/
def orZero : JSNum → JSNum
  | fin q => fin q
  | nan => fin 0
  | inf => inf
  | ninf => ninf

end JSNum

/-- A roster row from `cadastro_func` (the columns the aggregation and its
output use; the remaining selected columns are pass-through text fields
subsumed in `nome` for this model). -/
structure Funcionario where
  id : String
  nome : String
deriving DecidableEq, Repr

/-- A row of `lanc_diarias` as selected by the handler. -/
structure DiariaRow where
  funcionario_id : String
  data : String
  qtd : Option JSNum
  valor_diaria_aplicado : Option JSNum
deriving DecidableEq, Repr

/-- A row of `empreitas` as selected by the handler. -/
structure EmpreitaRow where
  funcionario_id : String
  data_pagamento : String
  valor : Option JSNum
deriving DecidableEq, Repr

/-- A row of `lanc_diarias_ajustes` as selected by the handler. -/
structure AjusteRow where
  funcionario_id : String
  data_inicio : String
  reembolso : Option JSNum
  adiantamento : Option JSNum
deriving DecidableEq, Repr

/-- The per-day bucket `{ diaria, empreita }` of an accumulator. -/
structure Bucket where
  diaria : JSNum
  empreita : JSNum
deriving DecidableEq, Repr

/-- The zero bucket `{ diaria: 0, empreita: 0 }`. -/
def Bucket.zero : Bucket := ⟨.fin 0, .fin 0⟩

/-- The per-worker accumulator created by `ensure`. -/
structure Agg where
  dias : List (String × Bucket)
  total_diaria : JSNum
  total_empreita : JSNum
  total_reembolso : JSNum
  total_adiantamento : JSNum
deriving DecidableEq, Repr

/-- The fresh accumulator `ensure` installs:
`{ dias: {}, total_diaria: 0, total_empreita: 0, total_reembolso: 0,
total_adiantamento: 0 }`. -/
def Agg.empty : Agg := ⟨[], .fin 0, .fin 0, .fin 0, .fin 0⟩

/-- The handler's `map` from `funcionario_id` to accumulator, in insertion
order. -/
abbrev AggMap := List (String × Agg)

/-- Lookup in the accumulator map (`map.get(funcId)`). -/
def lookupAgg : AggMap → String → Option Agg
  | [], _ => none
  | (k, a) :: rest, key => if k = key then some a else lookupAgg rest key

/-- `ensure(funcId)` followed by an in-place mutation `f` of the returned
accumulator: update the entry in place if present, else append a mutated
fresh accumulator. -/
def updateAgg : AggMap → String → (Agg → Agg) → AggMap
  | [], key, f => [(key, f Agg.empty)]
  | (k, a) :: rest, key, f =>
    if k = key then (k, f a) :: rest else (k, a) :: updateAgg rest key f

/-- Lookup in a `dias` object. -/
def lookupBucket : List (String × Bucket) → String → Option Bucket
  | [], _ => none
  | (k, b) :: rest, key => if k = key then some b else lookupBucket rest key

/-- `if (!obj.dias[dia]) obj.dias[dia] = {diaria: 0, empreita: 0}` followed
by an in-place mutation `f` of `obj.dias[dia]`. -/
def setBucket : List (String × Bucket) → String → (Bucket → Bucket) → List (String × Bucket)
  | [], key, f => [(key, f Bucket.zero)]
  | (k, b) :: rest, key, f =>
    if k = key then (k, f b) :: rest else (k, b) :: setBucket rest key f

/-- The amount `valorDia` of one `diarias` row:
`qtd = Number(row.qtd ?? 1)`, `v = Number(row.valor_diaria_aplicado ?? 0)`,
`valorDia = (Number.isFinite(qtd) ? qtd : 1) * (Number.isFinite(v) ? v : 0)`.
Both factors are finite after the guard, so the product is a rational. -/
def diariaAmount (row : DiariaRow) : ℚ :=
  (row.qtd.getD (.fin 1)).finOr 1 * (row.valor_diaria_aplicado.getD (.fin 0)).finOr 0

/-- The amount of one `empreitas` row: `valor = Number(row.valor ?? 0)`.
The source applies no `isFinite` guard here, so the value may be `NaN` or
an infinity. -/
def empreitaValor (row : EmpreitaRow) : JSNum :=
  row.valor.getD (.fin 0)

/-- The `reembolso` addend of one `ajustes` row:
`reembolso = Number(row.reembolso ?? 0)` then
`Number.isFinite(reembolso) ? reembolso : 0`. -/
def reembolsoAmount (row : AjusteRow) : ℚ :=
  (row.reembolso.getD (.fin 0)).finOr 0

/-- The `adiantamento` addend of one `ajustes` row, same guard as
`reembolsoAmount`. -/
def adiantamentoAmount (row : AjusteRow) : ℚ :=
  (row.adiantamento.getD (.fin 0)).finOr 0

/-- The mutation one `diarias` row performs on its worker's accumulator:
add `valorDia` to the day-bucket's `diaria` and to `total_diaria`. -/
def stepDiaria (row : DiariaRow) (a : Agg) : Agg :=
  { a with
    dias := setBucket a.dias row.data
      (fun b => { b with diaria := b.diaria.add (.fin (diariaAmount row)) })
    total_diaria := a.total_diaria.add (.fin (diariaAmount row)) }

/-- The mutation one `empreitas` row performs on its worker's accumulator:
add the (unguarded) `valor` to the day-bucket's `empreita` and to
`total_empreita`. -/
def stepEmpreita (row : EmpreitaRow) (a : Agg) : Agg :=
  { a with
    dias := setBucket a.dias row.data_pagamento
      (fun b => { b with empreita := b.empreita.add (empreitaValor row) })
    total_empreita := a.total_empreita.add (empreitaValor row) }

/-- The mutation one `ajustes` row performs on its worker's accumulator:
add the guarded addends to `total_reembolso` and `total_adiantamento`.
`dias`, `total_diaria`, `total_empreita` and the row's `data_inicio` are
untouched/unread. -/
def stepAjuste (row : AjusteRow) (a : Agg) : Agg :=
  { a with
    total_reembolso := a.total_reembolso.add (.fin (reembolsoAmount row))
    total_adiantamento := a.total_adiantamento.add (.fin (adiantamentoAmount row)) }

/-- One iteration of the `diarias` loop of the handler. -/
def processDiaria (m : AggMap) (row : DiariaRow) : AggMap :=
  updateAgg m row.funcionario_id (stepDiaria row)

/-- One iteration of the `empreitas` loop of the handler. -/
def processEmpreita (m : AggMap) (row : EmpreitaRow) : AggMap :=
  updateAgg m row.funcionario_id (stepEmpreita row)

/-- One iteration of the `ajustes` loop of the handler. -/
def processAjuste (m : AggMap) (row : AjusteRow) : AggMap :=
  updateAgg m row.funcionario_id (stepAjuste row)

/-- One output row of the report. -/
structure ReportRow where
  funcionario : Funcionario
  dias : List (String × Bucket)
  total_diaria : JSNum
  total_empreita : JSNum
  total_reembolso : JSNum
  total_adiantamento : JSNum
  total_pagar : JSNum
deriving DecidableEq, Repr

/-- The body of the output `funcList.map`:
`total_reembolso = Number(agg.total_reembolso || 0)`,
`total_adiantamento = Number(agg.total_adiantamento || 0)`,
`total_pagar = Number(agg.total_diaria || 0) + Number(agg.total_empreita || 0)
+ total_reembolso - total_adiantamento`, other fields passed through. -/
def mkRow (f : Funcionario) (agg : Agg) : ReportRow :=
  let total_reembolso := agg.total_reembolso.orZero
  let total_adiantamento := agg.total_adiantamento.orZero
  { funcionario := f
    dias := agg.dias
    total_diaria := agg.total_diaria
    total_empreita := agg.total_empreita
    total_reembolso := total_reembolso
    total_adiantamento := total_adiantamento
    total_pagar :=
      (((agg.total_diaria.orZero).add (agg.total_empreita.orZero)).add
        total_reembolso).sub total_adiantamento }

/-- The accumulator map after the three loops of the handler have run, in
source order: `diarias`, then `empreitas`, then `ajustes`, starting from the
empty `Map`. -/
def finalMap (diarias : List DiariaRow) (empreitas : List EmpreitaRow)
    (ajustes : List AjusteRow) : AggMap :=
  ajustes.foldl processAjuste
    (empreitas.foldl processEmpreita (diarias.foldl processDiaria []))

/-- The accumulator read for a worker id at output time: `ensure(f.id)`
returns the existing accumulator or installs a fresh empty one. -/
def aggAt (m : AggMap) (key : String) : Agg :=
  (lookupAgg m key).getD Agg.empty

/-- The day-bucket a `dias` object associates to a date, the zero bucket if
the date is absent. -/
def bucketAt (ds : List (String × Bucket)) (day : String) : Bucket :=
  (lookupBucket ds day).getD Bucket.zero

/-- The aggregation of `GET /relatorios/pagamento` as a pure function of the
four pre-fetched inputs: if the roster is empty the handler returns `[]`
before touching the fact tables; otherwise it runs the three accumulation
loops over an initially empty map and emits one row per roster entry, in
roster order. -/
def relatorioPagamento (funcList : List Funcionario) (diarias : List DiariaRow)
    (empreitas : List EmpreitaRow) (ajustes : List AjusteRow) : List ReportRow :=
  if funcList.isEmpty then []
  else funcList.map (fun f => mkRow f (aggAt (finalMap diarias empreitas ajustes) f.id))

/-- The sum of the resolved `valorDia` amounts of a list of `diarias` rows. -/
def sumDiaria (l : List DiariaRow) : ℚ :=
  l.foldl (fun s d => s + diariaAmount d) 0

/-- The JS-addition fold of the resolved `valor` values of a list of
`empreitas` rows (a `JSNum`, since the source does not guard finiteness
here). -/
def sumEmpreita (l : List EmpreitaRow) : JSNum :=
  l.foldl (fun s e => s.add (empreitaValor e)) (.fin 0)

/-- The sum of the resolved `reembolso` addends of a list of `ajustes`
rows. -/
def sumReembolso (l : List AjusteRow) : ℚ :=
  l.foldl (fun s x => s + reembolsoAmount x) 0

/-- The sum of the resolved `adiantamento` addends of a list of `ajustes`
rows. -/
def sumAdiantamento (l : List AjusteRow) : ℚ :=
  l.foldl (fun s x => s + adiantamentoAmount x) 0

theorem lookupAgg_updateAgg (m : AggMap) (key key2 : String) (f : Agg → Agg) :
    lookupAgg (updateAgg m key f) key2 =
      if key = key2 then some (f ((lookupAgg m key).getD Agg.empty))
      else lookupAgg m key2 := by
  induction m with
  | nil =>
    by_cases h : key = key2 <;> simp [updateAgg, lookupAgg, h]
  | cons hd tl ih =>
    obtain ⟨k, a⟩ := hd
    by_cases hk : k = key
    · subst hk
      by_cases h2 : k = key2 <;> simp [updateAgg, lookupAgg, h2]
    · by_cases h2 : key = key2
      · subst h2
        simp [updateAgg, lookupAgg, hk, ih]
      · simp [updateAgg, lookupAgg, hk, h2, ih]

theorem lookupBucket_setBucket (ds : List (String × Bucket)) (key key2 : String)
    (f : Bucket → Bucket) :
    lookupBucket (setBucket ds key f) key2 =
      if key = key2 then some (f ((lookupBucket ds key).getD Bucket.zero))
      else lookupBucket ds key2 := by
  induction ds with
  | nil =>
    by_cases h : key = key2 <;> simp [setBucket, lookupBucket, h]
  | cons hd tl ih =>
    obtain ⟨k, b⟩ := hd
    by_cases hk : k = key
    · subst hk
      by_cases h2 : k = key2 <;> simp [setBucket, lookupBucket, h2]
    · by_cases h2 : key = key2
      · subst h2
        simp [setBucket, lookupBucket, hk, ih]
      · simp [setBucket, lookupBucket, hk, h2, ih]

theorem bucketAt_setBucket (ds : List (String × Bucket)) (key key2 : String)
    (f : Bucket → Bucket) :
    bucketAt (setBucket ds key f) key2 =
      if key = key2 then f (bucketAt ds key) else bucketAt ds key2 := by
  by_cases h : key = key2 <;> simp [bucketAt, lookupBucket_setBucket, h]

theorem aggAt_foldl_update {α : Type} (getId : α → String) (step : α → Agg → Agg)
    (l : List α) (m : AggMap) (key : String) :
    aggAt (l.foldl (fun m x => updateAgg m (getId x) (step x)) m) key =
      (l.filter (fun x => getId x == key)).foldl (fun a x => step x a) (aggAt m key) := by
  induction l generalizing m with
  | nil => rfl
  | cons x t ih =>
    simp only [List.foldl_cons, List.filter_cons]
    by_cases h : getId x = key
    · rw [ih]
      simp [h, aggAt, lookupAgg_updateAgg]
    · rw [ih]
      simp [aggAt, lookupAgg_updateAgg, h]

theorem aggAt_foldl_processDiaria (l : List DiariaRow) (m : AggMap) (key : String) :
    aggAt (l.foldl processDiaria m) key =
      (l.filter (fun x => x.funcionario_id == key)).foldl (fun a x => stepDiaria x a)
        (aggAt m key) :=
  aggAt_foldl_update DiariaRow.funcionario_id stepDiaria l m key

theorem aggAt_foldl_processEmpreita (l : List EmpreitaRow) (m : AggMap) (key : String) :
    aggAt (l.foldl processEmpreita m) key =
      (l.filter (fun x => x.funcionario_id == key)).foldl (fun a x => stepEmpreita x a)
        (aggAt m key) :=
  aggAt_foldl_update EmpreitaRow.funcionario_id stepEmpreita l m key

theorem aggAt_foldl_processAjuste (l : List AjusteRow) (m : AggMap) (key : String) :
    aggAt (l.foldl processAjuste m) key =
      (l.filter (fun x => x.funcionario_id == key)).foldl (fun a x => stepAjuste x a)
        (aggAt m key) :=
  aggAt_foldl_update AjusteRow.funcionario_id stepAjuste l m key

theorem aggAt_finalMap (ds : List DiariaRow) (es : List EmpreitaRow)
    (ajs : List AjusteRow) (key : String) :
    aggAt (finalMap ds es ajs) key =
      (ajs.filter (fun x => x.funcionario_id == key)).foldl (fun a x => stepAjuste x a)
        ((es.filter (fun x => x.funcionario_id == key)).foldl (fun a x => stepEmpreita x a)
          ((ds.filter (fun x => x.funcionario_id == key)).foldl (fun a x => stepDiaria x a)
            Agg.empty)) := by
  unfold finalMap
  rw [aggAt_foldl_processAjuste, aggAt_foldl_processEmpreita, aggAt_foldl_processDiaria]
  rfl

theorem JSNum.fin_add_fin (a b : ℚ) : (JSNum.fin a).add (.fin b) = .fin (a + b) := rfl

theorem foldl_add_fin {α : Type} (g : α → ℚ) (l : List α) (q : ℚ) :
    l.foldl (fun s x => s.add (.fin (g x))) (JSNum.fin q) =
      .fin (l.foldl (fun s x => s + g x) q) := by
  induction l generalizing q with
  | nil => rfl
  | cons x t ih =>
    rw [List.foldl_cons, JSNum.fin_add_fin, ih]
    rfl

theorem foldl_stepDiaria_total_diaria (l : List DiariaRow) (a : Agg) :
    (l.foldl (fun a x => stepDiaria x a) a).total_diaria =
      l.foldl (fun s x => s.add (.fin (diariaAmount x))) a.total_diaria := by
  induction l generalizing a with
  | nil => rfl
  | cons x t ih =>
    rw [List.foldl_cons, ih]
    simp [stepDiaria]

theorem foldl_stepDiaria_total_empreita (l : List DiariaRow) (a : Agg) :
    (l.foldl (fun a x => stepDiaria x a) a).total_empreita = a.total_empreita := by
  induction l generalizing a with
  | nil => rfl
  | cons x t ih =>
    rw [List.foldl_cons, ih]
    simp [stepDiaria]

theorem foldl_stepDiaria_total_reembolso (l : List DiariaRow) (a : Agg) :
    (l.foldl (fun a x => stepDiaria x a) a).total_reembolso = a.total_reembolso := by
  induction l generalizing a with
  | nil => rfl
  | cons x t ih =>
    rw [List.foldl_cons, ih]
    simp [stepDiaria]

theorem foldl_stepDiaria_total_adiantamento (l : List DiariaRow) (a : Agg) :
    (l.foldl (fun a x => stepDiaria x a) a).total_adiantamento = a.total_adiantamento := by
  induction l generalizing a with
  | nil => rfl
  | cons x t ih =>
    rw [List.foldl_cons, ih]
    simp [stepDiaria]

theorem foldl_stepEmpreita_total_empreita (l : List EmpreitaRow) (a : Agg) :
    (l.foldl (fun a x => stepEmpreita x a) a).total_empreita =
      l.foldl (fun s x => s.add (empreitaValor x)) a.total_empreita := by
  induction l generalizing a with
  | nil => rfl
  | cons x t ih =>
    rw [List.foldl_cons, ih]
    simp [stepEmpreita]

theorem foldl_stepEmpreita_total_diaria (l : List EmpreitaRow) (a : Agg) :
    (l.foldl (fun a x => stepEmpreita x a) a).total_diaria = a.total_diaria := by
  induction l generalizing a with
  | nil => rfl
  | cons x t ih =>
    rw [List.foldl_cons, ih]
    simp [stepEmpreita]

theorem foldl_stepEmpreita_total_reembolso (l : List EmpreitaRow) (a : Agg) :
    (l.foldl (fun a x => stepEmpreita x a) a).total_reembolso = a.total_reembolso := by
  induction l generalizing a with
  | nil => rfl
  | cons x t ih =>
    rw [List.foldl_cons, ih]
    simp [stepEmpreita]

theorem foldl_stepEmpreita_total_adiantamento (l : List EmpreitaRow) (a : Agg) :
    (l.foldl (fun a x => stepEmpreita x a) a).total_adiantamento = a.total_adiantamento := by
  induction l generalizing a with
  | nil => rfl
  | cons x t ih =>
    rw [List.foldl_cons, ih]
    simp [stepEmpreita]

theorem foldl_stepAjuste_dias (l : List AjusteRow) (a : Agg) :
    (l.foldl (fun a x => stepAjuste x a) a).dias = a.dias := by
  induction l generalizing a with
  | nil => rfl
  | cons x t ih =>
    rw [List.foldl_cons, ih]
    simp [stepAjuste]

theorem foldl_stepAjuste_total_diaria (l : List AjusteRow) (a : Agg) :
    (l.foldl (fun a x => stepAjuste x a) a).total_diaria = a.total_diaria := by
  induction l generalizing a with
  | nil => rfl
  | cons x t ih =>
    rw [List.foldl_cons, ih]
    simp [stepAjuste]

theorem foldl_stepAjuste_total_empreita (l : List AjusteRow) (a : Agg) :
    (l.foldl (fun a x => stepAjuste x a) a).total_empreita = a.total_empreita := by
  induction l generalizing a with
  | nil => rfl
  | cons x t ih =>
    rw [List.foldl_cons, ih]
    simp [stepAjuste]

theorem foldl_stepAjuste_total_reembolso (l : List AjusteRow) (a : Agg) :
    (l.foldl (fun a x => stepAjuste x a) a).total_reembolso =
      l.foldl (fun s x => s.add (.fin (reembolsoAmount x))) a.total_reembolso := by
  induction l generalizing a with
  | nil => rfl
  | cons x t ih =>
    rw [List.foldl_cons, ih]
    simp [stepAjuste]

theorem foldl_stepAjuste_total_adiantamento (l : List AjusteRow) (a : Agg) :
    (l.foldl (fun a x => stepAjuste x a) a).total_adiantamento =
      l.foldl (fun s x => s.add (.fin (adiantamentoAmount x))) a.total_adiantamento := by
  induction l generalizing a with
  | nil => rfl
  | cons x t ih =>
    rw [List.foldl_cons, ih]
    simp [stepAjuste]

theorem foldl_stepDiaria_bucketAt (l : List DiariaRow) (a : Agg) (day : String) :
    bucketAt (l.foldl (fun a x => stepDiaria x a) a).dias day =
      { diaria := (l.filter (fun x => x.data == day)).foldl
          (fun s x => s.add (.fin (diariaAmount x))) (bucketAt a.dias day).diaria
        empreita := (bucketAt a.dias day).empreita } := by
  induction l generalizing a with
  | nil => rfl
  | cons x t ih =>
    simp only [List.foldl_cons, List.filter_cons]
    rw [ih]
    by_cases h : x.data = day
    · simp [stepDiaria, bucketAt_setBucket, h]
    · simp [stepDiaria, bucketAt_setBucket, h]

theorem foldl_stepEmpreita_bucketAt (l : List EmpreitaRow) (a : Agg) (day : String) :
    bucketAt (l.foldl (fun a x => stepEmpreita x a) a).dias day =
      { diaria := (bucketAt a.dias day).diaria
        empreita := (l.filter (fun x => x.data_pagamento == day)).foldl
          (fun s x => s.add (empreitaValor x)) (bucketAt a.dias day).empreita } := by
  induction l generalizing a with
  | nil => rfl
  | cons x t ih =>
    simp only [List.foldl_cons, List.filter_cons]
    rw [ih]
    by_cases h : x.data_pagamento = day
    · simp [stepEmpreita, bucketAt_setBucket, h]
    · simp [stepEmpreita, bucketAt_setBucket, h]

theorem total_diaria_finalMap (ds : List DiariaRow) (es : List EmpreitaRow)
    (ajs : List AjusteRow) (key : String) :
    (aggAt (finalMap ds es ajs) key).total_diaria =
      .fin (sumDiaria (ds.filter (fun x => x.funcionario_id == key))) := by
  rw [aggAt_finalMap, foldl_stepAjuste_total_diaria, foldl_stepEmpreita_total_diaria,
    foldl_stepDiaria_total_diaria]
  have h : Agg.empty.total_diaria = JSNum.fin 0 := rfl
  rw [h, foldl_add_fin]
  rfl

theorem total_empreita_finalMap (ds : List DiariaRow) (es : List EmpreitaRow)
    (ajs : List AjusteRow) (key : String) :
    (aggAt (finalMap ds es ajs) key).total_empreita =
      sumEmpreita (es.filter (fun x => x.funcionario_id == key)) := by
  rw [aggAt_finalMap, foldl_stepAjuste_total_empreita, foldl_stepEmpreita_total_empreita,
    foldl_stepDiaria_total_empreita]
  rfl

theorem total_reembolso_finalMap (ds : List DiariaRow) (es : List EmpreitaRow)
    (ajs : List AjusteRow) (key : String) :
    (aggAt (finalMap ds es ajs) key).total_reembolso =
      .fin (sumReembolso (ajs.filter (fun x => x.funcionario_id == key))) := by
  rw [aggAt_finalMap, foldl_stepAjuste_total_reembolso, foldl_stepEmpreita_total_reembolso,
    foldl_stepDiaria_total_reembolso]
  have h : Agg.empty.total_reembolso = JSNum.fin 0 := rfl
  rw [h, foldl_add_fin]
  rfl

theorem total_adiantamento_finalMap (ds : List DiariaRow) (es : List EmpreitaRow)
    (ajs : List AjusteRow) (key : String) :
    (aggAt (finalMap ds es ajs) key).total_adiantamento =
      .fin (sumAdiantamento (ajs.filter (fun x => x.funcionario_id == key))) := by
  rw [aggAt_finalMap, foldl_stepAjuste_total_adiantamento, foldl_stepEmpreita_total_adiantamento,
    foldl_stepDiaria_total_adiantamento]
  have h : Agg.empty.total_adiantamento = JSNum.fin 0 := rfl
  rw [h, foldl_add_fin]
  rfl

theorem dias_finalMap (ds : List DiariaRow) (es : List EmpreitaRow)
    (ajs : List AjusteRow) (key : String) :
    (aggAt (finalMap ds es ajs) key).dias =
      ((es.filter (fun x => x.funcionario_id == key)).foldl (fun a x => stepEmpreita x a)
        ((ds.filter (fun x => x.funcionario_id == key)).foldl (fun a x => stepDiaria x a)
          Agg.empty)).dias := by
  rw [aggAt_finalMap, foldl_stepAjuste_dias]

theorem bucketAt_finalMap (ds : List DiariaRow) (es : List EmpreitaRow)
    (ajs : List AjusteRow) (key day : String) :
    bucketAt (aggAt (finalMap ds es ajs) key).dias day =
      { diaria := .fin (sumDiaria ((ds.filter (fun x => x.funcionario_id == key)).filter
          (fun x => x.data == day)))
        empreita := sumEmpreita ((es.filter (fun x => x.funcionario_id == key)).filter
          (fun x => x.data_pagamento == day)) } := by
  rw [dias_finalMap, foldl_stepEmpreita_bucketAt, foldl_stepDiaria_bucketAt]
  have h : bucketAt Agg.empty.dias day = Bucket.zero := rfl
  rw [h]
  have h2 : Bucket.zero.diaria = JSNum.fin 0 := rfl
  have h3 : Bucket.zero.empreita = JSNum.fin 0 := rfl
  rw [h2, h3, foldl_add_fin]
  rfl

theorem mkRow_funcionario (f : Funcionario) (a : Agg) : (mkRow f a).funcionario = f := rfl

theorem mkRow_dias (f : Funcionario) (a : Agg) : (mkRow f a).dias = a.dias := rfl

theorem mkRow_total_diaria (f : Funcionario) (a : Agg) :
    (mkRow f a).total_diaria = a.total_diaria := rfl

theorem mkRow_total_empreita (f : Funcionario) (a : Agg) :
    (mkRow f a).total_empreita = a.total_empreita := rfl

theorem mkRow_total_reembolso (f : Funcionario) (a : Agg) :
    (mkRow f a).total_reembolso = a.total_reembolso.orZero := rfl

theorem mkRow_total_adiantamento (f : Funcionario) (a : Agg) :
    (mkRow f a).total_adiantamento = a.total_adiantamento.orZero := rfl

theorem mkRow_total_pagar (f : Funcionario) (a : Agg) :
    (mkRow f a).total_pagar =
      (((a.total_diaria.orZero).add (a.total_empreita.orZero)).add
        a.total_reembolso.orZero).sub a.total_adiantamento.orZero := rfl

theorem orZero_fin (q : ℚ) : (JSNum.fin q).orZero = .fin q := rfl

theorem mem_relatorioPagamento (fs : List Funcionario) (ds : List DiariaRow)
    (es : List EmpreitaRow) (ajs : List AjusteRow) (r : ReportRow) :
    r ∈ relatorioPagamento fs ds es ajs ↔
      ∃ f ∈ fs, r = mkRow f (aggAt (finalMap ds es ajs) f.id) := by
  unfold relatorioPagamento
  cases fs with
  | nil => simp
  | cons f t =>
    simp only [List.isEmpty_cons, Bool.false_eq_true, if_false, List.mem_map, List.mem_cons]
    constructor
    · rintro ⟨g, hg, rfl⟩
      exact ⟨g, hg, rfl⟩
    · rintro ⟨g, hg, rfl⟩
      exact ⟨g, hg, rfl⟩

/-- Claim C8: with an empty roster the handler returns the empty report at
once, for every daily-entry, piece-work and adjustment input (the
short-circuit sits before the three accumulation loops, so the result does
not depend on the fact data at all). -/
theorem C8_empty_roster (ds : List DiariaRow) (es : List EmpreitaRow)
    (ajs : List AjusteRow) : relatorioPagamento [] ds es ajs = [] := rfl

/-- Claim C3: for every roster and any fact inputs, the output has exactly
one row per roster entry, carrying the roster's workers in roster order (so
the output worker ids are exactly the roster's ids, in the roster's order),
and a roster worker matched by no fact row still appears, with empty `dias`,
all four totals `0` and `total_pagar` `0`. -/
theorem C3_coverage_and_zero_activity (fs : List Funcionario) (ds : List DiariaRow)
    (es : List EmpreitaRow) (ajs : List AjusteRow) :
    (relatorioPagamento fs ds es ajs).map ReportRow.funcionario = fs ∧
    ∀ r ∈ relatorioPagamento fs ds es ajs,
      (∀ d ∈ ds, d.funcionario_id ≠ r.funcionario.id) →
      (∀ e ∈ es, e.funcionario_id ≠ r.funcionario.id) →
      (∀ x ∈ ajs, x.funcionario_id ≠ r.funcionario.id) →
      r.dias = [] ∧ r.total_diaria = .fin 0 ∧ r.total_empreita = .fin 0 ∧
        r.total_reembolso = .fin 0 ∧ r.total_adiantamento = .fin 0 ∧
        r.total_pagar = .fin 0 := by
  constructor
  · unfold relatorioPagamento
    cases fs with
    | nil => rfl
    | cons f t => simp [List.map_map, Function.comp_def, mkRow_funcionario]
  · intro r hr hd he hx
    obtain ⟨f, hf, rfl⟩ := (mem_relatorioPagamento fs ds es ajs r).mp hr
    rw [mkRow_funcionario] at hd he hx
    have hds : ds.filter (fun x => x.funcionario_id == f.id) = [] := by
      rw [List.filter_eq_nil_iff]
      intro d hm
      simpa using hd d hm
    have hes : es.filter (fun x => x.funcionario_id == f.id) = [] := by
      rw [List.filter_eq_nil_iff]
      intro e hm
      simpa using he e hm
    have hajs : ajs.filter (fun x => x.funcionario_id == f.id) = [] := by
      rw [List.filter_eq_nil_iff]
      intro x hm
      simpa using hx x hm
    refine ⟨?_, ?_, ?_, ?_, ?_, ?_⟩
    · rw [mkRow_dias, dias_finalMap, hds, hes]
      rfl
    · rw [mkRow_total_diaria, total_diaria_finalMap, hds]
      rfl
    · rw [mkRow_total_empreita, total_empreita_finalMap, hes]
      rfl
    · rw [mkRow_total_reembolso, total_reembolso_finalMap, hajs]
      rfl
    · rw [mkRow_total_adiantamento, total_adiantamento_finalMap, hajs]
      rfl
    · rw [mkRow_total_pagar, total_diaria_finalMap, total_empreita_finalMap,
        total_reembolso_finalMap, total_adiantamento_finalMap, hds, hes, hajs]
      simp [sumDiaria, sumEmpreita, sumReembolso, sumAdiantamento,
        JSNum.orZero, JSNum.add, JSNum.sub, JSNum.neg]

/-- Witness for C3: roster `[w1]`, no fact rows; the output workers are
exactly the roster and the single row is all-zero with empty `dias`. -/
theorem C3_witness :
    ((relatorioPagamento [⟨"w1", "Ana"⟩] [] [] []).map ReportRow.funcionario =
      [⟨"w1", "Ana"⟩]) ∧
    ((mkRow ⟨"w1", "Ana"⟩ (aggAt (finalMap [] [] []) "w1")).dias = [] ∧
      (mkRow ⟨"w1", "Ana"⟩ (aggAt (finalMap [] [] []) "w1")).total_diaria = .fin 0 ∧
      (mkRow ⟨"w1", "Ana"⟩ (aggAt (finalMap [] [] []) "w1")).total_empreita = .fin 0 ∧
      (mkRow ⟨"w1", "Ana"⟩ (aggAt (finalMap [] [] []) "w1")).total_reembolso = .fin 0 ∧
      (mkRow ⟨"w1", "Ana"⟩ (aggAt (finalMap [] [] []) "w1")).total_adiantamento = .fin 0 ∧
      (mkRow ⟨"w1", "Ana"⟩ (aggAt (finalMap [] [] []) "w1")).total_pagar = .fin 0) :=
  ⟨(C3_coverage_and_zero_activity [⟨"w1", "Ana"⟩] [] [] []).1,
    (C3_coverage_and_zero_activity [⟨"w1", "Ana"⟩] [] [] []).2
      (mkRow ⟨"w1", "Ana"⟩ (aggAt (finalMap [] [] []) "w1"))
      (by simp [relatorioPagamento]) (by simp) (by simp) (by simp)⟩

/-- Claim C4: in every output row, `total_diaria` is the sum over the
worker's `diarias` rows of `qtd * rate`, where `qtd` defaults to `1` when
absent or non-finite and `rate` (`valor_diaria_aplicado`) defaults to `0`
when absent or non-finite (`diariaAmount`), and each day-bucket's `diaria`
is the same sum restricted to that date. -/
theorem C4_diaria_amounts (fs : List Funcionario) (ds : List DiariaRow)
    (es : List EmpreitaRow) (ajs : List AjusteRow) :
    ∀ r ∈ relatorioPagamento fs ds es ajs,
      r.total_diaria =
        .fin (sumDiaria (ds.filter (fun x => x.funcionario_id == r.funcionario.id))) ∧
      ∀ day, (bucketAt r.dias day).diaria =
        .fin (sumDiaria ((ds.filter (fun x => x.funcionario_id == r.funcionario.id)).filter
          (fun x => x.data == day))) := by
  intro r hr
  obtain ⟨f, hf, rfl⟩ := (mem_relatorioPagamento fs ds es ajs r).mp hr
  rw [mkRow_funcionario]
  constructor
  · rw [mkRow_total_diaria, total_diaria_finalMap]
  · intro day
    rw [mkRow_dias, bucketAt_finalMap]

/-- Witness for C4 at the spec's Scenario B: one `diarias` row with `qtd`
absent and rate `50`; `qtd` defaults to `1`, so the row's day bucket and
`total_diaria` are `50`. -/
theorem C4_witness :
    (mkRow ⟨"w1", "Ana"⟩
        (aggAt (finalMap [⟨"w1", "2026-02-02", none, some (.fin 50)⟩] [] []) "w1") ∈
      relatorioPagamento [⟨"w1", "Ana"⟩]
        [⟨"w1", "2026-02-02", none, some (.fin 50)⟩] [] []) ∧
    (mkRow ⟨"w1", "Ana"⟩
        (aggAt (finalMap [⟨"w1", "2026-02-02", none, some (.fin 50)⟩] [] []) "w1")).total_diaria =
      .fin 50 ∧
    (bucketAt (mkRow ⟨"w1", "Ana"⟩
        (aggAt (finalMap [⟨"w1", "2026-02-02", none, some (.fin 50)⟩] [] []) "w1")).dias
      "2026-02-02").diaria = .fin 50 := by
  have hmem : mkRow ⟨"w1", "Ana"⟩
      (aggAt (finalMap [⟨"w1", "2026-02-02", none, some (.fin 50)⟩] [] []) "w1") ∈
      relatorioPagamento [⟨"w1", "Ana"⟩]
        [⟨"w1", "2026-02-02", none, some (.fin 50)⟩] [] [] := by
    simp [relatorioPagamento]
  have h := C4_diaria_amounts [⟨"w1", "Ana"⟩]
    [⟨"w1", "2026-02-02", none, some (.fin 50)⟩] [] [] _ hmem
  refine ⟨hmem, ?_, ?_⟩
  · rw [h.1]
    norm_num [mkRow_funcionario, sumDiaria, diariaAmount, JSNum.finOr]
  · rw [h.2 "2026-02-02"]
    norm_num [mkRow_funcionario, sumDiaria, diariaAmount, JSNum.finOr]

/-- Claim C5: several rows sharing the same (worker, date) key accumulate
additively into the shared day-bucket and worker total, not
last-write-wins: each day-bucket holds the sum of all matching rows'
amounts (`diaria` from the `diarias` rows of that worker and date,
`empreita` from the `empreitas` rows), and `total_empreita` the sum over
all the worker's `empreitas` rows. -/
theorem C5_additive_accumulation (fs : List Funcionario) (ds : List DiariaRow)
    (es : List EmpreitaRow) (ajs : List AjusteRow) :
    ∀ r ∈ relatorioPagamento fs ds es ajs,
      r.total_empreita =
        sumEmpreita (es.filter (fun x => x.funcionario_id == r.funcionario.id)) ∧
      ∀ day,
        (bucketAt r.dias day).empreita =
          sumEmpreita ((es.filter (fun x => x.funcionario_id == r.funcionario.id)).filter
            (fun x => x.data_pagamento == day)) ∧
        (bucketAt r.dias day).diaria =
          .fin (sumDiaria ((ds.filter (fun x => x.funcionario_id == r.funcionario.id)).filter
            (fun x => x.data == day))) := by
  intro r hr
  obtain ⟨f, hf, rfl⟩ := (mem_relatorioPagamento fs ds es ajs r).mp hr
  rw [mkRow_funcionario]
  constructor
  · rw [mkRow_total_empreita, total_empreita_finalMap]
  · intro day
    rw [mkRow_dias, bucketAt_finalMap]
    exact ⟨rfl, rfl⟩

/-- Witness for C5 at the spec's Scenario C: two `empreitas` rows for the
same worker and date with `valor` 30 and 70; the shared day bucket holds
`100` and `total_empreita` is `100`. -/
theorem C5_witness :
    (mkRow ⟨"w1", "Ana"⟩
        (aggAt (finalMap [] [⟨"w1", "2026-02-03", some (.fin 30)⟩,
          ⟨"w1", "2026-02-03", some (.fin 70)⟩] []) "w1") ∈
      relatorioPagamento [⟨"w1", "Ana"⟩] [] [⟨"w1", "2026-02-03", some (.fin 30)⟩,
        ⟨"w1", "2026-02-03", some (.fin 70)⟩] []) ∧
    (mkRow ⟨"w1", "Ana"⟩
        (aggAt (finalMap [] [⟨"w1", "2026-02-03", some (.fin 30)⟩,
          ⟨"w1", "2026-02-03", some (.fin 70)⟩] []) "w1")).total_empreita = .fin 100 ∧
    (bucketAt (mkRow ⟨"w1", "Ana"⟩
        (aggAt (finalMap [] [⟨"w1", "2026-02-03", some (.fin 30)⟩,
          ⟨"w1", "2026-02-03", some (.fin 70)⟩] []) "w1")).dias
      "2026-02-03").empreita = .fin 100 := by
  have hmem : mkRow ⟨"w1", "Ana"⟩
      (aggAt (finalMap [] [⟨"w1", "2026-02-03", some (.fin 30)⟩,
        ⟨"w1", "2026-02-03", some (.fin 70)⟩] []) "w1") ∈
      relatorioPagamento [⟨"w1", "Ana"⟩] [] [⟨"w1", "2026-02-03", some (.fin 30)⟩,
        ⟨"w1", "2026-02-03", some (.fin 70)⟩] [] := by
    simp [relatorioPagamento]
  have h := C5_additive_accumulation [⟨"w1", "Ana"⟩] []
    [⟨"w1", "2026-02-03", some (.fin 30)⟩, ⟨"w1", "2026-02-03", some (.fin 70)⟩] [] _ hmem
  refine ⟨hmem, ?_, ?_⟩
  · rw [h.1]
    norm_num [mkRow_funcionario, sumEmpreita, empreitaValor, JSNum.add]
  · rw [(h.2 "2026-02-03").1]
    norm_num [mkRow_funcionario, sumEmpreita, empreitaValor, JSNum.add]

/-- Claim C7: processing adjustment rows changes only the worker-level
`total_reembolso` and `total_adiantamento`, each addend resolved to `0` when
absent or non-finite: with the other inputs fixed, every output row has the
same `dias`, `total_diaria` and `total_empreita` as the run without
adjustments (so no adjustment amount enters any `dias` bucket), and the two
adjustment totals are the sums of the resolved addends. -/
theorem C7_ajustes_period_level (fs : List Funcionario) (ds : List DiariaRow)
    (es : List EmpreitaRow) (ajs : List AjusteRow) :
    (∀ p ∈ (relatorioPagamento fs ds es ajs).zip (relatorioPagamento fs ds es []),
      p.1.dias = p.2.dias ∧ p.1.total_diaria = p.2.total_diaria ∧
        p.1.total_empreita = p.2.total_empreita) ∧
    ∀ r ∈ relatorioPagamento fs ds es ajs,
      r.total_reembolso =
        .fin (sumReembolso (ajs.filter (fun x => x.funcionario_id == r.funcionario.id))) ∧
      r.total_adiantamento =
        .fin (sumAdiantamento (ajs.filter (fun x => x.funcionario_id == r.funcionario.id))) := by
  constructor
  · intro p hp
    unfold relatorioPagamento at hp
    cases fs with
    | nil => simp at hp
    | cons f t =>
      simp only [List.isEmpty_cons, Bool.false_eq_true, if_false, List.zip_map'] at hp
      obtain ⟨g, hg, rfl⟩ := List.mem_map.mp hp
      refine ⟨?_, ?_, ?_⟩
      · rw [mkRow_dias, mkRow_dias, dias_finalMap, dias_finalMap]
      · rw [mkRow_total_diaria, mkRow_total_diaria, total_diaria_finalMap,
          total_diaria_finalMap]
      · rw [mkRow_total_empreita, mkRow_total_empreita, total_empreita_finalMap,
          total_empreita_finalMap]
  · intro r hr
    obtain ⟨f, hf, rfl⟩ := (mem_relatorioPagamento fs ds es ajs r).mp hr
    rw [mkRow_funcionario]
    constructor
    · rw [mkRow_total_reembolso, total_reembolso_finalMap, orZero_fin]
    · rw [mkRow_total_adiantamento, total_adiantamento_finalMap, orZero_fin]

/-- Witness for C7 at the spec's Scenario D: one adjustment row with
`reembolso` 20 and `adiantamento` 5 and no other facts: `dias` is the same
(empty) as without the adjustment, `total_reembolso` is `20` and
`total_adiantamento` is `5`. -/
theorem C7_witness :
    ((mkRow ⟨"w1", "Ana"⟩
        (aggAt (finalMap [] [] [⟨"w1", "2026-02-01", some (.fin 20), some (.fin 5)⟩]) "w1"),
      mkRow ⟨"w1", "Ana"⟩ (aggAt (finalMap [] [] []) "w1")) ∈
        (relatorioPagamento [⟨"w1", "Ana"⟩] [] []
          [⟨"w1", "2026-02-01", some (.fin 20), some (.fin 5)⟩]).zip
          (relatorioPagamento [⟨"w1", "Ana"⟩] [] [] [])) ∧
    (mkRow ⟨"w1", "Ana"⟩
        (aggAt (finalMap [] [] [⟨"w1", "2026-02-01", some (.fin 20), some (.fin 5)⟩]) "w1")).dias =
      (mkRow ⟨"w1", "Ana"⟩ (aggAt (finalMap [] [] []) "w1")).dias ∧
    (mkRow ⟨"w1", "Ana"⟩
        (aggAt (finalMap [] [] [⟨"w1", "2026-02-01", some (.fin 20), some (.fin 5)⟩]) "w1")).total_reembolso =
      .fin 20 ∧
    (mkRow ⟨"w1", "Ana"⟩
        (aggAt (finalMap [] [] [⟨"w1", "2026-02-01", some (.fin 20), some (.fin 5)⟩]) "w1")).total_adiantamento =
      .fin 5 := by
  have hzip : (mkRow ⟨"w1", "Ana"⟩
      (aggAt (finalMap [] [] [⟨"w1", "2026-02-01", some (.fin 20), some (.fin 5)⟩]) "w1"),
      mkRow ⟨"w1", "Ana"⟩ (aggAt (finalMap [] [] []) "w1")) ∈
      (relatorioPagamento [⟨"w1", "Ana"⟩] [] []
        [⟨"w1", "2026-02-01", some (.fin 20), some (.fin 5)⟩]).zip
        (relatorioPagamento [⟨"w1", "Ana"⟩] [] [] []) := by
    simp [relatorioPagamento]
  have hmem : mkRow ⟨"w1", "Ana"⟩
      (aggAt (finalMap [] [] [⟨"w1", "2026-02-01", some (.fin 20), some (.fin 5)⟩]) "w1") ∈
      relatorioPagamento [⟨"w1", "Ana"⟩] [] []
        [⟨"w1", "2026-02-01", some (.fin 20), some (.fin 5)⟩] := by
    simp [relatorioPagamento]
  have h1 := (C7_ajustes_period_level [⟨"w1", "Ana"⟩] [] []
    [⟨"w1", "2026-02-01", some (.fin 20), some (.fin 5)⟩]).1 _ hzip
  have h2 := (C7_ajustes_period_level [⟨"w1", "Ana"⟩] [] []
    [⟨"w1", "2026-02-01", some (.fin 20), some (.fin 5)⟩]).2 _ hmem
  refine ⟨hzip, h1.1, ?_, ?_⟩
  · rw [h2.1]
    norm_num [mkRow_funcionario, sumReembolso, reembolsoAmount, JSNum.finOr]
  · rw [h2.2]
    norm_num [mkRow_funcionario, sumAdiantamento, adiantamentoAmount, JSNum.finOr]

/-- Claim C6: a fact row whose `funcionario_id` is no roster worker's id
contributes nothing to any output row: inserting such a daily, piece-work or
adjustment row anywhere into its fact list leaves the whole aggregation
output unchanged (and the aggregation is a total function — no error is
raised). -/
theorem C6_orphan_rows (fs : List Funcionario)
    (ds1 ds2 ds : List DiariaRow) (d : DiariaRow)
    (es1 es2 es : List EmpreitaRow) (e : EmpreitaRow)
    (ajs1 ajs2 ajs : List AjusteRow) (x : AjusteRow)
    (hd : d.funcionario_id ∉ fs.map Funcionario.id)
    (he : e.funcionario_id ∉ fs.map Funcionario.id)
    (hx : x.funcionario_id ∉ fs.map Funcionario.id) :
    relatorioPagamento fs (ds1 ++ d :: ds2) es ajs =
      relatorioPagamento fs (ds1 ++ ds2) es ajs ∧
    relatorioPagamento fs ds (es1 ++ e :: es2) ajs =
      relatorioPagamento fs ds (es1 ++ es2) ajs ∧
    relatorioPagamento fs ds es (ajs1 ++ x :: ajs2) =
      relatorioPagamento fs ds es (ajs1 ++ ajs2) := by
  have hpd : ∀ f ∈ fs, (d.funcionario_id == f.id) = false := by
    intro f hf
    simp only [beq_eq_false_iff_ne, ne_eq]
    intro hEq
    exact hd (hEq ▸ List.mem_map_of_mem Funcionario.id hf)
  have hpe : ∀ f ∈ fs, (e.funcionario_id == f.id) = false := by
    intro f hf
    simp only [beq_eq_false_iff_ne, ne_eq]
    intro hEq
    exact he (hEq ▸ List.mem_map_of_mem Funcionario.id hf)
  have hpx : ∀ f ∈ fs, (x.funcionario_id == f.id) = false := by
    intro f hf
    simp only [beq_eq_false_iff_ne, ne_eq]
    intro hEq
    exact hx (hEq ▸ List.mem_map_of_mem Funcionario.id hf)
  refine ⟨?_, ?_, ?_⟩
  · unfold relatorioPagamento
    cases fs with
    | nil => rfl
    | cons f t =>
      simp only [List.isEmpty_cons, Bool.false_eq_true, if_false]
      apply List.map_congr_left
      intro g hg
      rw [aggAt_finalMap, aggAt_finalMap, List.filter_append, List.filter_append,
        List.filter_cons, hpd g hg]
      simp
  · unfold relatorioPagamento
    cases fs with
    | nil => rfl
    | cons f t =>
      simp only [List.isEmpty_cons, Bool.false_eq_true, if_false]
      apply List.map_congr_left
      intro g hg
      rw [aggAt_finalMap, aggAt_finalMap, List.filter_append, List.filter_append,
        List.filter_cons, hpe g hg]
      simp
  · unfold relatorioPagamento
    cases fs with
    | nil => rfl
    | cons f t =>
      simp only [List.isEmpty_cons, Bool.false_eq_true, if_false]
      apply List.map_congr_left
      intro g hg
      rw [aggAt_finalMap, aggAt_finalMap, List.filter_append, List.filter_append,
        List.filter_cons, hpx g hg]
      simp

/-- Witness for C6: roster `[w1]`; a daily, a piece-work and an adjustment
row for the unknown worker id `ghost` are each dropped without changing the
output. -/
theorem C6_witness :
    ((⟨"ghost", "2026-02-01", some (.fin 2), some (.fin 100)⟩ : DiariaRow).funcionario_id ∉
      ([⟨"w1", "Ana"⟩] : List Funcionario).map Funcionario.id) ∧
    ((⟨"ghost", "2026-02-01", some (.fin 30)⟩ : EmpreitaRow).funcionario_id ∉
      ([⟨"w1", "Ana"⟩] : List Funcionario).map Funcionario.id) ∧
    ((⟨"ghost", "2026-02-01", some (.fin 20), some (.fin 5)⟩ : AjusteRow).funcionario_id ∉
      ([⟨"w1", "Ana"⟩] : List Funcionario).map Funcionario.id) ∧
    (relatorioPagamento [⟨"w1", "Ana"⟩]
        ([] ++ ⟨"ghost", "2026-02-01", some (.fin 2), some (.fin 100)⟩ :: []) [] [] =
      relatorioPagamento [⟨"w1", "Ana"⟩] ([] ++ []) [] [] ∧
    relatorioPagamento [⟨"w1", "Ana"⟩] []
        ([] ++ ⟨"ghost", "2026-02-01", some (.fin 30)⟩ :: []) [] =
      relatorioPagamento [⟨"w1", "Ana"⟩] [] ([] ++ []) [] ∧
    relatorioPagamento [⟨"w1", "Ana"⟩] [] []
        ([] ++ ⟨"ghost", "2026-02-01", some (.fin 20), some (.fin 5)⟩ :: []) =
      relatorioPagamento [⟨"w1", "Ana"⟩] [] [] ([] ++ [])) :=
  ⟨by decide, by decide, by decide,
    C6_orphan_rows [⟨"w1", "Ana"⟩] [] [] [] ⟨"ghost", "2026-02-01", some (.fin 2), some (.fin 100)⟩
      [] [] [] ⟨"ghost", "2026-02-01", some (.fin 30)⟩
      [] [] [] ⟨"ghost", "2026-02-01", some (.fin 20), some (.fin 5)⟩
      (by decide) (by decide) (by decide)⟩

theorem foldl_processAjuste_congr (ajs ajs2 : List AjusteRow)
    (h : ajs.map (fun x => (x.funcionario_id, x.reembolso, x.adiantamento)) =
      ajs2.map (fun x => (x.funcionario_id, x.reembolso, x.adiantamento)))
    (m : AggMap) :
    ajs.foldl processAjuste m = ajs2.foldl processAjuste m := by
  induction ajs generalizing ajs2 m with
  | nil =>
    cases ajs2 with
    | nil => rfl
    | cons y t2 => simp at h
  | cons x t ih =>
    cases ajs2 with
    | nil => simp at h
    | cons y t2 =>
      simp only [List.map_cons, List.cons.injEq, Prod.mk.injEq] at h
      obtain ⟨⟨h1, h2, h3⟩, h4⟩ := h
      rw [List.foldl_cons, List.foldl_cons]
      have hstep : processAjuste m x = processAjuste m y := by
        unfold processAjuste stepAjuste reembolsoAmount adiantamentoAmount
        rw [h1, h2, h3]
      rw [hstep]
      exact ih t2 h4 (processAjuste m y)

/-- Claim C9: the aggregation never reads `data_inicio` of adjustment rows:
two adjustment inputs that agree, row by row, on `funcionario_id`,
`reembolso` and `adiantamento` but differ arbitrarily in `data_inicio`
produce identical outputs. -/
theorem C9_data_inicio_not_read (fs : List Funcionario) (ds : List DiariaRow)
    (es : List EmpreitaRow) (ajs ajs2 : List AjusteRow)
    (h : ajs.map (fun x => (x.funcionario_id, x.reembolso, x.adiantamento)) =
      ajs2.map (fun x => (x.funcionario_id, x.reembolso, x.adiantamento))) :
    relatorioPagamento fs ds es ajs = relatorioPagamento fs ds es ajs2 := by
  unfold relatorioPagamento finalMap
  rw [foldl_processAjuste_congr ajs ajs2 h]

/-- Witness for C9: two single-row adjustment inputs agreeing on everything
but `data_inicio` (`2026-02-01` versus `1999-12-31`) give the same
output. -/
theorem C9_witness :
    (([⟨"w1", "2026-02-01", some (.fin 20), some (.fin 5)⟩] : List AjusteRow).map
        (fun x => (x.funcionario_id, x.reembolso, x.adiantamento)) =
      ([⟨"w1", "1999-12-31", some (.fin 20), some (.fin 5)⟩] : List AjusteRow).map
        (fun x => (x.funcionario_id, x.reembolso, x.adiantamento))) ∧
    relatorioPagamento [⟨"w1", "Ana"⟩] [] []
        [⟨"w1", "2026-02-01", some (.fin 20), some (.fin 5)⟩] =
      relatorioPagamento [⟨"w1", "Ana"⟩] [] []
        [⟨"w1", "1999-12-31", some (.fin 20), some (.fin 5)⟩] :=
  ⟨rfl, C9_data_inicio_not_read [⟨"w1", "Ana"⟩] [] []
    [⟨"w1", "2026-02-01", some (.fin 20), some (.fin 5)⟩]
    [⟨"w1", "1999-12-31", some (.fin 20), some (.fin 5)⟩] rfl⟩

/-- Claim C1 concerns the resolution `valor` → `0` for non-finite values in
the `empreitas` loop; the loop resolves only an absent `valor`
(`Number(row.valor ?? 0)`) and, unlike the neighbouring `diarias` and
`ajustes` loops, applies no `Number.isFinite` guard, so a non-finite
`valor` is added as-is and does propagate into the output: with roster
`[w1]` and the single piece-work row `{funcionario_id: w1, data_pagamento:
2026-02-03, valor: NaN}`, the output row has `total_empreita = NaN` and
day-bucket `empreita = NaN` (the claimed behaviour would give `0`). -/
theorem C1_nan_valor_propagates :
    (relatorioPagamento [⟨"w1", "Ana"⟩] []
        [⟨"w1", "2026-02-03", some JSNum.nan⟩] []).map
      (fun r => (r.total_empreita, (bucketAt r.dias "2026-02-03").empreita)) =
      [(JSNum.nan, JSNum.nan)] := by
  norm_num [relatorioPagamento, finalMap, processEmpreita, updateAgg, stepEmpreita,
    empreitaValor, aggAt, lookupAgg, mkRow, bucketAt, lookupBucket, setBucket,
    Agg.empty, Bucket.zero, JSNum.add, JSNum.orZero, JSNum.sub, JSNum.neg]

/-- Claim C2's `total_pagar` equation fails on the code when a non-finite
piece-work `valor` slips through the unguarded `empreitas` loop: with one
daily row worth `100` and one piece-work row with `valor = NaN`, the
accumulated `total_empreita` is `NaN`, which the output map's
`Number(agg.total_empreita || 0)` coerces to `0` inside `total_pagar`
(`NaN` is falsy) while the row's reported `total_empreita` stays `NaN`; so
`total_pagar = 100` but
`total_diaria + total_empreita + total_reembolso - total_adiantamento =
NaN`. -/
theorem C2_total_pagar_inconsistent_on_nan :
    (relatorioPagamento [⟨"w1", "Ana"⟩]
        [⟨"w1", "2026-02-03", some (.fin 2), some (.fin 50)⟩]
        [⟨"w1", "2026-02-03", some JSNum.nan⟩] []).map
      (fun r => (r.total_pagar,
        ((r.total_diaria.add r.total_empreita).add r.total_reembolso).sub
          r.total_adiantamento)) =
      [(JSNum.fin 100, JSNum.nan)] := by
  norm_num [relatorioPagamento, finalMap, processEmpreita, processDiaria, updateAgg,
    stepEmpreita, stepDiaria, empreitaValor, diariaAmount, JSNum.finOr, aggAt,
    lookupAgg, mkRow, bucketAt, lookupBucket, setBucket, Agg.empty, Bucket.zero,
    JSNum.add, JSNum.orZero, JSNum.sub, JSNum.neg]

/-- Claim C10: no non-negativity is enforced on monetary fields: a
piece-work row with `valor = -50` makes `total_empreita` equal `-50`
(strictly below the `0` obtained without the row), and an adjustment row
with `adiantamento = -30` makes `total_pagar` equal `30` (strictly above
the `0` obtained without it) — both without any error, the aggregation
being a total function. -/
theorem C10_negative_amounts_accumulate :
    ((relatorioPagamento [⟨"w1", "Ana"⟩] []
        [⟨"w1", "2026-02-03", some (.fin (-50))⟩] []).map ReportRow.total_empreita =
      [JSNum.fin (-50)] ∧
     (relatorioPagamento [⟨"w1", "Ana"⟩] [] [] []).map ReportRow.total_empreita =
      [JSNum.fin 0] ∧
     (-50 : ℚ) < 0) ∧
    ((relatorioPagamento [⟨"w1", "Ana"⟩] [] []
        [⟨"w1", "2026-02-01", none, some (.fin (-30))⟩]).map ReportRow.total_pagar =
      [JSNum.fin 30] ∧
     (relatorioPagamento [⟨"w1", "Ana"⟩] [] [] []).map ReportRow.total_pagar =
      [JSNum.fin 0] ∧
     (0 : ℚ) < 30) := by
  refine ⟨⟨?_, ?_, by norm_num⟩, ⟨?_, ?_, by norm_num⟩⟩ <;>
    norm_num [relatorioPagamento, finalMap, processEmpreita, processAjuste, updateAgg,
      stepEmpreita, stepAjuste, empreitaValor, reembolsoAmount, adiantamentoAmount,
      JSNum.finOr, aggAt, lookupAgg, mkRow, bucketAt, lookupBucket, setBucket,
      Agg.empty, Bucket.zero, JSNum.add, JSNum.orZero, JSNum.sub, JSNum.neg]
